import Mathlib

/-!
# devdash: the Github widget dispatcher (`internal/github_widget.go`)

A shallow embedding of `githubWidget.CreateWidgets` and its ten handlers.
The handlers talk to two collaborators (the Github client and the terminal
UI) and to two helpers of package `platform`; none of them is part of
`github_widget.go`, so they are fields of a `World` record, and every handler
returns the list of calls it made together with the error it returned.

Go strings are modelled by Lean strings (valid UTF-8 text), Go `int` and
`int64` by `Int` with the 64-bit range checked where `strconv.ParseInt`
checks it.
-/

namespace Devdash

/-! ## Strings (package `strings`) -/

/-- Go `unicode.IsSpace`: the white space characters trimmed by `strings.TrimSpace`. -/
def isSpace (c : Char) : Bool :=
  c = '\t' || c = '\n' || c = '\x0b' || c = '\x0c' || c = '\r' || c = ' ' ||
  c.toNat = 0x85 || c.toNat = 0xA0 || c.toNat = 0x1680 ||
  (0x2000 ≤ c.toNat && c.toNat ≤ 0x200a) ||
  c.toNat = 0x2028 || c.toNat = 0x2029 || c.toNat = 0x202f ||
  c.toNat = 0x205f || c.toNat = 0x3000

/-- Drop the leading white space of a character list. -/
def trimLeft : List Char → List Char
  | [] => []
  | c :: cs => if isSpace c then trimLeft cs else c :: cs

/-- Go `strings.TrimSpace`: remove leading and trailing white space. -/
def TrimSpace (s : String) : String :=
  String.mk (trimLeft (trimLeft s.data).reverse).reverse

/-- Split a character list at every comma; the empty list gives one empty piece. -/
def splitComma : List Char → List (List Char)
  | [] => [[]]
  | c :: cs =>
    if c = ',' then [] :: splitComma cs
    else
      match splitComma cs with
      | [] => [[c]]
      | h :: t => (c :: h) :: t

/-- Go `strings.Split(s, ",")`. -/
def Split (s : String) : List String :=
  (splitComma s.data).map String.mk

/-- Does `p` start the list `l`. -/
def hasPrefix : List Char → List Char → Bool
  | [], _ => true
  | _ :: _, [] => false
  | a :: p, b :: l => a = b && hasPrefix p l

/-- Does `sub` occur in `l` as a contiguous block. -/
def containsList (sub : List Char) : List Char → Bool
  | [] => hasPrefix sub []
  | c :: cs => hasPrefix sub (c :: cs) || containsList sub cs

/-- Go `strings.Contains(s, substr)`. -/
def Contains (s substr : String) : Bool :=
  containsList substr.data s.data

/-! ## Numbers (package `strconv`) -/

/-- The two sentinel errors of package `strconv`. -/
inductive NumErrKind where
  | ErrSyntax
  | ErrRange
  deriving DecidableEq, Repr

/-- Go `strconv.NumError`: the failed function, the input, and the reason. -/
structure NumError where
  Func : String
  Num : String
  Err : NumErrKind
  deriving DecidableEq, Repr

/-- Text of a `strconv` sentinel error. -/
def NumErrKind.text : NumErrKind → String
  | .ErrSyntax => "invalid syntax"
  | .ErrRange => "value out of range"

/-- The lower-case hexadecimal digit of a number below 16. -/
def hexDigit (n : Nat) : Char :=
  "0123456789abcdef".data.getD n '0'

/-- One character inside Go `strconv.Quote`: a backslash (character 92)
before a double quote (character 34) and before a backslash; the short escapes
for bell, backspace, form feed, line feed, carriage return, tab and vertical
tab; `\x` and two hexadecimal digits for the other control characters of
ASCII (below 32, and 127); every other character as it is. (Go also escapes
the non-printable characters outside ASCII, which are kept here.) -/
def quoteChar (c : Char) : List Char :=
  if c = Char.ofNat 34 ∨ c = Char.ofNat 92 then [Char.ofNat 92, c]
  else if c.toNat = 7 then [Char.ofNat 92, 'a']
  else if c.toNat = 8 then [Char.ofNat 92, 'b']
  else if c.toNat = 12 then [Char.ofNat 92, 'f']
  else if c.toNat = 10 then [Char.ofNat 92, 'n']
  else if c.toNat = 13 then [Char.ofNat 92, 'r']
  else if c.toNat = 9 then [Char.ofNat 92, 't']
  else if c.toNat = 11 then [Char.ofNat 92, 'v']
  else if c.toNat < 32 ∨ c.toNat = 127 then
    [Char.ofNat 92, 'x', hexDigit (c.toNat / 16), hexDigit (c.toNat % 16)]
  else [c]

/-- Go `strconv.Quote`, as used for the input inside a `NumError` message:
the quoted characters between two double quotes. -/
def quote (s : String) : String :=
  String.mk (Char.ofNat 34 :: (s.data.flatMap quoteChar) ++ [Char.ofNat 34])

/-- Go `(*NumError).Error`. -/
def NumError.Error (e : NumError) : String :=
  "strconv." ++ e.Func ++ ": parsing " ++ quote e.Num ++ ": " ++ e.Err.text

/-- The digit loop of `strconv.ParseUint(s, 10, 64)`: `n` is the value read so
far. A character that is not a decimal digit is a syntax error; a value that
leaves the unsigned 64-bit range is a range error, reported where the loop
meets it. -/
def parseDigits : List Char → Nat → Except NumErrKind Nat
  | [], n => .ok n
  | c :: cs, n =>
    if '0' ≤ c ∧ c ≤ '9' then
      if n ≥ (2 ^ 64 - 1) / 10 + 1 then .error .ErrRange
      else
        let n1 := n * 10 + (c.toNat - '0'.toNat)
        if n1 > 2 ^ 64 - 1 then .error .ErrRange
        else parseDigits cs n1
    else .error .ErrSyntax

/-- Go `strconv.ParseUint(s, 10, 64)`, without the error wrapping. -/
def ParseUint (s : List Char) : Except NumErrKind Nat :=
  match s with
  | [] => .error .ErrSyntax
  | _ :: _ => parseDigits s 0

/-- Go `strconv.ParseInt(s, 10, 0)` on a 64-bit platform: an optional sign, then
decimal digits, the value in the signed 64-bit range. -/
def ParseInt (s : String) : Except NumError Int :=
  match s.data with
  | [] => .error ⟨"ParseInt", s, .ErrSyntax⟩
  | c :: cs =>
    let neg := c = '-'
    let body := if c = '+' ∨ c = '-' then cs else c :: cs
    match ParseUint body with
    | .error .ErrSyntax => .error ⟨"ParseInt", s, .ErrSyntax⟩
    | .error .ErrRange => .error ⟨"ParseInt", s, .ErrRange⟩
    | .ok un =>
      if ¬ neg ∧ un ≥ 2 ^ 63 then .error ⟨"ParseInt", s, .ErrRange⟩
      else if neg ∧ un > 2 ^ 63 then .error ⟨"ParseInt", s, .ErrRange⟩
      else .ok (if neg then - (un : Int) else (un : Int))

/-- A base-10 integer as text, in the words of the spec: an optional sign
followed by one or more decimal digits. -/
def isDecimalNumeral (s : String) : Bool :=
  match s.data with
  | [] => false
  | c :: cs =>
    let body := if c = '+' ∨ c = '-' then cs else c :: cs
    !body.isEmpty && body.all fun d => decide ('0' ≤ d ∧ d ≤ '9')

/-- Go `strconv.FormatInt(i, 10)`. -/
def FormatInt (i : Int) : String :=
  match i with
  | .ofNat n => String.mk (Nat.toDigits 10 n)
  | .negSucc n => "-" ++ String.mk (Nat.toDigits 10 (n + 1))

/-! ## Data model -/

/-- Go `map[string]string`: the option bag of a widget, as an association list
(the first entry of a key is the entry of the map). -/
abbrev OptionBag := List (String × String)

/-- The `ok` of Go's `_, ok := m[k]`. -/
def OptionBag.has (o : OptionBag) (k : String) : Bool :=
  (o.lookup k).isSome

/-- Go's `m[k]`: the value stored under `k`, the empty string when `k` is absent. -/
def OptionBag.get (o : OptionBag) (k : String) : String :=
  (o.lookup k).getD ""

/-- The fields of `Widget` that the Github handlers read. -/
structure Widget where
  Name : String
  Options : OptionBag
  deriving DecidableEq, Repr

/-- Modelled from the spec: the option key constant `optionRepository`, declared outside `github_widget.go`; the key table of the spec calls it `repository`. -/
def optionRepository : String := "repository"

/-- Modelled from the spec: the option key constant `optionTitle`, declared outside `github_widget.go`; the key table of the spec calls it `title`. -/
def optionTitle : String := "title"

/-- Modelled from the spec: the option key constant `optionRowLimit`, declared outside `github_widget.go`; the key table of the spec calls it `row_limit`. -/
def optionRowLimit : String := "row_limit"

/-- Modelled from the spec: the option key constant `optionMetrics`, declared outside `github_widget.go`; the key table of the spec calls it `metrics`. -/
def optionMetrics : String := "metrics"

/-- Modelled from the spec: the option key constant `optionOrder`, declared outside `github_widget.go`; the key table of the spec calls it `order`. -/
def optionOrder : String := "order"

/-- Modelled from the spec: the option key constant `optionScope`, declared outside `github_widget.go`; the key table of the spec calls it `scope`. -/
def optionScope : String := "scope"

/-- Modelled from the spec: the option key constant `optionStartDate`, declared outside `github_widget.go`; the key table of the spec calls it `start_date`. -/
def optionStartDate : String := "start_date"

/-- Modelled from the spec: the option key constant `optionEndDate`, declared outside `github_widget.go`; the key table of the spec calls it `end_date`. -/
def optionEndDate : String := "end_date"

/-- Modelled from the spec: the constant `ownerScope`, declared outside `github_widget.go`; the spec gives the default scope as `owner`. -/
def ownerScope : String := "owner"

/-- The widget name constants of lines 13-24. -/
def githubBoxStars : String := "github.box_stars"
def githubBoxWatchers : String := "github.box_watchers"
def githubBoxOpenIssues : String := "github.box_open_issues"
def githubTableRepositories : String := "github.table_repositories"
def githubTableBranches : String := "github.table_branches"
def githubTableIssues : String := "github.table_issues"
def githubTablePullRequests : String := "github.table_pull_requests"
def githubBarViews : String := "github.bar_views"
def githubBarCommits : String := "github.bar_commits"
def githubBarStars : String := "github.bar_stars"

/-- The ten widget names of the `const` block, in the order of the `switch`. -/
def widgetNames : List String :=
  [githubBoxStars, githubBoxWatchers, githubBoxOpenIssues, githubTableRepositories,
   githubTableBranches, githubTableIssues, githubTablePullRequests, githubBarViews,
   githubBarCommits, githubBarStars]

/-- Go `time.Time`, as a count of days: the only thing the handlers do with an
instant is to pass it on. -/
abbrev Time := Int

/-- The rows of a table: each row a list of cells. -/
abbrev Rows := List (List String)

/-- An error value made outside `github_widget.go` (by the Github client, the
terminal UI or package `platform`); the handlers only pass it on. -/
structure ExternalError where
  msg : String
  deriving DecidableEq, Repr

/-- The error values `CreateWidgets` can return, one constructor per place of
`github_widget.go` that makes or forwards an error. -/
inductive WidgetError where
  /-- The `errors.Errorf` in the `default` case of the `switch`. -/
  | unknownWidget (name : String)
  /-- The `errors.Wrapf(err, "%s must be a number", raw)` of the table handlers. -/
  | mustBeNumber (raw : String) (cause : NumError)
  /-- The `errors.New` of `barCommits`. -/
  | weekRange
  /-- The plain `return err` of an error received from a callee. -/
  | external (e : ExternalError)
  deriving DecidableEq, Repr

/-- The `Error()` text of each error value (`Wrapf` puts its message, a colon
and a space before the text of the cause). -/
def WidgetError.Error : WidgetError → String
  | .unknownWidget name => "can't find the widget " ++ name ++ " for service github"
  | .mustBeNumber raw cause => raw ++ " must be a number" ++ ": " ++ cause.Error
  | .weekRange =>
    "The widget github.bar_commits require you to indicate a week range, ie startDate: 5_weeks_ago, endDate: 1_weeks_ago "
  | .external e => e.msg

/-- A call that leaves `github_widget.go`, with its arguments: the ten
operations of the Github client, the three of the terminal UI, and the two
date helpers of package `platform`. -/
inductive Call where
  | TotalStars (repo : String)
  | TotalWatchers (repo : String)
  | TotalOpenIssues (repo : String)
  | ListRepo (limit : Int) (order : String) (metrics : List String)
  | ListBranches (repo : String) (limit : Int)
  | ListIssues (repo : String) (limit : Int)
  | ListPullRequests (repo : String) (limit : Int)
  | Views (repo : String) (days : Int)
  | CountCommits (repo scope : String) (startWeek endWeek : Int) (now : Time)
  | CountStars (repo : String) (startDate endDate : Time)
  | AddTextBox (data title : String) (options : OptionBag)
  | AddTable (data : Rows) (title : String) (options : OptionBag)
  | AddBarChart (data : List Int) (dimensions : List String) (title : String)
      (options : OptionBag)
  | ExtractCountPeriod (base : String)
  | ConvertDates (now : Time) (startDate endDate : String)
  deriving DecidableEq, Repr

/-- Calls of the Github client (the metrics provider). -/
def Call.isProvider : Call → Bool
  | .TotalStars _ | .TotalWatchers _ | .TotalOpenIssues _ | .ListRepo _ _ _
  | .ListBranches _ _ | .ListIssues _ _ | .ListPullRequests _ _ | .Views _ _
  | .CountCommits _ _ _ _ _ | .CountStars _ _ _ => true
  | _ => false

/-- Calls of the terminal UI (the display). -/
def Call.isDisplay : Call → Bool
  | .AddTextBox _ _ _ | .AddTable _ _ _ | .AddBarChart _ _ _ _ => true
  | _ => false

/-- Calls of a collaborator: provider or display. -/
def Call.isCollaborator (c : Call) : Bool :=
  c.isProvider || c.isDisplay

/-- Modelled from the spec: the Github client, the terminal UI (`Tui`) and the date helpers of package `platform`, whose declarations are not in `github_widget.go`. Following the spec, every provider operation and both date helpers return a result or an error, and each of the three display operations (text box, table, bar chart) may fail, so each reports an error or nothing. The call sites show what the handlers do with that report: `AddTextBox` is used as `err = g.tui.AddTextBox(...)`, while `AddTable` and `AddBarChart` are called as plain statements. `now` is the value of `time.Now()`. -/
structure World where
  now : Time
  TotalStars : String → Except ExternalError Int
  TotalWatchers : String → Except ExternalError Int
  TotalOpenIssues : String → Except ExternalError Int
  ListRepo : Int → String → List String → Except ExternalError Rows
  ListBranches : String → Int → Except ExternalError Rows
  ListIssues : String → Int → Except ExternalError Rows
  ListPullRequests : String → Int → Except ExternalError Rows
  Views : String → Int → Except ExternalError (List String × List Int)
  CountCommits : String → String → Int → Int → Time →
    Except ExternalError (List String × List Int)
  CountStars : String → Time → Time → Except ExternalError (List String × List Int)
  AddTextBox : String → String → OptionBag → Option ExternalError
  AddTable : Rows → String → OptionBag → Option ExternalError
  AddBarChart : List Int → List String → String → OptionBag → Option ExternalError
  ExtractCountPeriod : String → Except ExternalError Int
  ConvertDates : Time → String → String → Except ExternalError (Time × Time)

/-- What one handler run did: the calls it made, in order, and the error it
returned (`none` is Go's `nil`). -/
structure Run where
  trace : List Call
  err : Option WidgetError
  deriving DecidableEq, Repr

/-- The calls of a run that went to a collaborator. -/
def Run.collaboratorCalls (r : Run) : List Call :=
  r.trace.filter Call.isCollaborator

/-! ## The handlers -/

/-- The pattern `x := d; if _, ok := m[k]; ok { x = m[k] }`. -/
def OptionBag.getOr (o : OptionBag) (k d : String) : String :=
  if o.has k then o.get k else d

/-- The row limit block shared, word for word, by the four table handlers:
5 when the key is absent, else `strconv.ParseInt` of the value, a failure
wrapped with the raw value. -/
def rowLimit (o : OptionBag) : Except WidgetError Int :=
  if o.has optionRowLimit then
    match ParseInt (o.get optionRowLimit) with
    | .error e => .error (.mustBeNumber (o.get optionRowLimit) e)
    | .ok n => .ok n
  else .ok 5

/-- The tail shared by the three box handlers: format the count, show it in a
text box, return the error of the text box if there is one. -/
def showBox (w : World) (call : Call) (count : Int) (title : String)
    (options : OptionBag) : Run :=
  let s := FormatInt count
  match w.AddTextBox s title options with
  | some e => ⟨[call, .AddTextBox s title options], some (.external e)⟩
  | none => ⟨[call, .AddTextBox s title options], none⟩

/-- Handler `boxStars` (lines 74-102): repository and title, `TotalStars`, then the text box. -/
def boxStars (w : World) (widget : Widget) : Run :=
  let repo := widget.Options.getOr optionRepository ""
  let title := widget.Options.getOr optionTitle (" Github Stars for " ++ repo)
  match w.TotalStars repo with
  | .error e => ⟨[.TotalStars repo], some (.external e)⟩
  | .ok stars => showBox w (.TotalStars repo) stars title widget.Options

/-- Handler `boxWatchers` (lines 104-132): title and repository, `TotalWatchers`, then the text box. -/
def boxWatchers (w : World) (widget : Widget) : Run :=
  let title := widget.Options.getOr optionTitle " Github Watchers "
  let repo := widget.Options.getOr optionRepository ""
  match w.TotalWatchers repo with
  | .error e => ⟨[.TotalWatchers repo], some (.external e)⟩
  | .ok n => showBox w (.TotalWatchers repo) n title widget.Options

/-- Handler `boxOpenIssues` (lines 134-162): title and repository, `TotalOpenIssues`, then the text box. -/
def boxOpenIssues (w : World) (widget : Widget) : Run :=
  let title := widget.Options.getOr optionTitle " Github Open Issues "
  let repo := widget.Options.getOr optionRepository ""
  match w.TotalOpenIssues repo with
  | .error e => ⟨[.TotalOpenIssues repo], some (.external e)⟩
  | .ok n => showBox w (.TotalOpenIssues repo) n title widget.Options

/-- The metric list of `tableRepo`: the default, replaced by the trimmed value
split at the commas when the key is present with a value of length above 0. -/
def repoMetrics (o : OptionBag) : List String :=
  if o.has optionMetrics then
    if (o.get optionMetrics).length > 0 then Split (TrimSpace (o.get optionMetrics))
    else ["name", "stars", "watchers", "forks", "open_issues"]
  else ["name", "stars", "watchers", "forks", "open_issues"]

/-- The sort key of `tableRepo`: the test is on `optionOrder`, the value read is
the one under `optionRowLimit`, as in the source. -/
def repoOrder (o : OptionBag) : String :=
  if o.has optionOrder then o.get optionRowLimit else "pushed"

/-- Handler `tableRepo` (lines 164-198): title, row limit, metrics, order, `ListRepo`, then the table; the handler returns `nil` after the table call. -/
def tableRepo (w : World) (widget : Widget) : Run :=
  let title := widget.Options.getOr optionTitle " Github Repositories "
  match rowLimit widget.Options with
  | .error e => ⟨[], some e⟩
  | .ok limit =>
    let metrics := repoMetrics widget.Options
    let order := repoOrder widget.Options
    match w.ListRepo limit order metrics with
    | .error e => ⟨[.ListRepo limit order metrics], some (.external e)⟩
    | .ok rs => ⟨[.ListRepo limit order metrics, .AddTable rs title widget.Options], none⟩

/-- Handler `tableBranches` (lines 200-227): repository, title, row limit, `ListBranches`, then the table. -/
def tableBranches (w : World) (widget : Widget) : Run :=
  let repo := widget.Options.getOr optionRepository ""
  let title := widget.Options.getOr optionTitle " Github Branches "
  match rowLimit widget.Options with
  | .error e => ⟨[], some e⟩
  | .ok limit =>
    match w.ListBranches repo limit with
    | .error e => ⟨[.ListBranches repo limit], some (.external e)⟩
    | .ok bs => ⟨[.ListBranches repo limit, .AddTable bs title widget.Options], none⟩

/-- Handler `tableIssues` (lines 229-256): repository, title, row limit, `ListIssues`, then the table. -/
def tableIssues (w : World) (widget : Widget) : Run :=
  let repo := widget.Options.getOr optionRepository ""
  let title := widget.Options.getOr optionTitle " Github Issues "
  match rowLimit widget.Options with
  | .error e => ⟨[], some e⟩
  | .ok limit =>
    match w.ListIssues repo limit with
    | .error e => ⟨[.ListIssues repo limit], some (.external e)⟩
    | .ok is => ⟨[.ListIssues repo limit, .AddTable is title widget.Options], none⟩

/-- Handler `tablePullRequests` (lines 258-285): repository, title, row limit, `ListPullRequests`, then the table. -/
def tablePullRequests (w : World) (widget : Widget) : Run :=
  let repo := widget.Options.getOr optionRepository ""
  let title := widget.Options.getOr optionTitle " Github Pull Requests "
  match rowLimit widget.Options with
  | .error e => ⟨[], some e⟩
  | .ok limit =>
    match w.ListPullRequests repo limit with
    | .error e => ⟨[.ListPullRequests repo limit], some (.external e)⟩
    | .ok is => ⟨[.ListPullRequests repo limit, .AddTable is title widget.Options], none⟩

/-- Handler `barViews` (lines 287-306): repository, title, `Views(repo, 0)`, then the bar chart. -/
def barViews (w : World) (widget : Widget) : Run :=
  let repo := widget.Options.getOr optionRepository ""
  let title := widget.Options.getOr optionTitle " Github Views "
  match w.Views repo 0 with
  | .error e => ⟨[.Views repo 0], some (.external e)⟩
  | .ok (dim, counts) =>
    ⟨[.Views repo 0, .AddBarChart counts dim title widget.Options], none⟩

/-- Handler `barCommits` (lines 309-357): repository, title, start and end date, scope, the `weeks_ago` test on both dates, the period of each date, `CountCommits`, then the bar chart. -/
def barCommits (w : World) (widget : Widget) : Run :=
  let repo := widget.Options.getOr optionRepository ""
  let title := widget.Options.getOr optionTitle " Github Commit Per Week "
  let sd := widget.Options.getOr optionStartDate "7_weeks_ago"
  let ed := widget.Options.getOr optionEndDate "0_weeks_ago"
  let scope := widget.Options.getOr optionScope ownerScope
  if !Contains sd "weeks_ago" || !Contains ed "weeks_ago" then ⟨[], some .weekRange⟩
  else
    match w.ExtractCountPeriod sd with
    | .error e => ⟨[.ExtractCountPeriod sd], some (.external e)⟩
    | .ok sw =>
      match w.ExtractCountPeriod ed with
      | .error e => ⟨[.ExtractCountPeriod sd, .ExtractCountPeriod ed], some (.external e)⟩
      | .ok ew =>
        match w.CountCommits repo scope sw ew w.now with
        | .error e =>
          ⟨[.ExtractCountPeriod sd, .ExtractCountPeriod ed,
            .CountCommits repo scope sw ew w.now], some (.external e)⟩
        | .ok (dim, counts) =>
          ⟨[.ExtractCountPeriod sd, .ExtractCountPeriod ed,
            .CountCommits repo scope sw ew w.now,
            .AddBarChart counts dim title widget.Options], none⟩

/-- Handler `barStars` (lines 359-393): repository, title, start and end date, `ConvertDates`, `CountStars`, then the bar chart. -/
def barStars (w : World) (widget : Widget) : Run :=
  let repo := widget.Options.getOr optionRepository ""
  let title := widget.Options.getOr optionTitle " Github Stars "
  let startDate := widget.Options.getOr optionStartDate "7_days_ago"
  let endDate := widget.Options.getOr optionEndDate "today"
  match w.ConvertDates w.now startDate endDate with
  | .error e => ⟨[.ConvertDates w.now startDate endDate], some (.external e)⟩
  | .ok (sd, ed) =>
    match w.CountStars repo sd ed with
    | .error e =>
      ⟨[.ConvertDates w.now startDate endDate, .CountStars repo sd ed], some (.external e)⟩
    | .ok (dim, counts) =>
      ⟨[.ConvertDates w.now startDate endDate, .CountStars repo sd ed,
        .AddBarChart counts dim title widget.Options], none⟩

/-- The dispatcher `githubWidget.CreateWidgets`: the `switch` on `widget.Name`. -/
def CreateWidgets (w : World) (widget : Widget) : Run :=
  if widget.Name = githubBoxStars then boxStars w widget
  else if widget.Name = githubBoxWatchers then boxWatchers w widget
  else if widget.Name = githubBoxOpenIssues then boxOpenIssues w widget
  else if widget.Name = githubTableRepositories then tableRepo w widget
  else if widget.Name = githubTableBranches then tableBranches w widget
  else if widget.Name = githubTableIssues then tableIssues w widget
  else if widget.Name = githubTablePullRequests then tablePullRequests w widget
  else if widget.Name = githubBarViews then barViews w widget
  else if widget.Name = githubBarCommits then barCommits w widget
  else if widget.Name = githubBarStars then barStars w widget
  else ⟨[], some (.unknownWidget widget.Name)⟩

/-! ## The collaborators, for concrete runs -/

/-- The error of a result, if it is one. -/
def failureOf {α : Type} : Except ExternalError α → Option ExternalError
  | .error e => some e
  | .ok _ => none

/-- What the provider answers to a provider call: its error, or `none` when
the operation succeeds (and for a call that is not a provider call). -/
def World.providerFailure (w : World) : Call → Option ExternalError
  | .TotalStars repo => failureOf (w.TotalStars repo)
  | .TotalWatchers repo => failureOf (w.TotalWatchers repo)
  | .TotalOpenIssues repo => failureOf (w.TotalOpenIssues repo)
  | .ListRepo limit order metrics => failureOf (w.ListRepo limit order metrics)
  | .ListBranches repo limit => failureOf (w.ListBranches repo limit)
  | .ListIssues repo limit => failureOf (w.ListIssues repo limit)
  | .ListPullRequests repo limit => failureOf (w.ListPullRequests repo limit)
  | .Views repo days => failureOf (w.Views repo days)
  | .CountCommits repo scope sw ew now => failureOf (w.CountCommits repo scope sw ew now)
  | .CountStars repo sd ed => failureOf (w.CountStars repo sd ed)
  | _ => none

/-- What the display answers to a display call: its error, or `none` when the
operation succeeds (and for a call that is not a display call). -/
def World.displayFailure (w : World) : Call → Option ExternalError
  | .AddTextBox data title options => w.AddTextBox data title options
  | .AddTable data title options => w.AddTable data title options
  | .AddBarChart data dimensions title options => w.AddBarChart data dimensions title options
  | _ => none

/-- The part of a date expression before its first underscore. -/
def leadingSegment (expr : String) : String :=
  String.mk (expr.data.takeWhile fun c => c ≠ '_')

/-- Modelled from the spec: `platform.ExtractCountPeriod`, whose code is not in `github_widget.go`. It accepts an expression that contains the unit token `weeks_ago` or `days_ago` and whose leading segment is an integer, and returns that integer; anything else is a malformed date expression. -/
def platform.ExtractCountPeriod (expr : String) : Except ExternalError Int :=
  if Contains expr "weeks_ago" || Contains expr "days_ago" then
    match ParseInt (leadingSegment expr) with
    | .ok n => .ok n
    | .error _ => .error ⟨"malformed date expression " ++ expr⟩
  else .error ⟨"malformed date expression " ++ expr⟩

/-- Modelled from the spec: one expression of `platform.ConvertDates`, relative to `now`: the literal `today` is the day of `now`, and an expression with the unit token `days_ago` and an integer leading segment is that many days before; anything else is a malformed date expression. -/
def platform.resolveDay (now : Time) (expr : String) : Except ExternalError Time :=
  if expr = "today" then .ok now
  else if Contains expr "days_ago" then
    match ParseInt (leadingSegment expr) with
    | .ok n => .ok (now - n)
    | .error _ => .error ⟨"malformed date expression " ++ expr⟩
  else .error ⟨"malformed date expression " ++ expr⟩

/-- Modelled from the spec: `platform.ConvertDates`, whose code is not in `github_widget.go`. Both expressions are resolved against the same `now`; the first one that fails gives the error; the order of the two instants is not checked. -/
def platform.ConvertDates (now : Time) (startExpr endExpr : String) :
    Except ExternalError (Time × Time) :=
  match platform.resolveDay now startExpr with
  | .error e => .error e
  | .ok sd =>
    match platform.resolveDay now endExpr with
    | .error e => .error e
    | .ok ed => .ok (sd, ed)

/-- Five repository rows. -/
def fiveRepos : Rows :=
  [["devdash", "900", "30", "50", "12"], ["gocket", "40", "3", "2", "0"],
   ["testbed", "7", "1", "0", "1"], ["dotfiles", "5", "1", "1", "0"],
   ["notes", "1", "1", "0", "0"]]

/-- A world in which every operation succeeds: the repository listing always
answers with the same five rows, the date helpers are the ones modelled from
the spec, and day 19000 is today. -/
def stubWorld : World where
  now := 19000
  TotalStars := fun _ => .ok 900
  TotalWatchers := fun _ => .ok 30
  TotalOpenIssues := fun _ => .ok 12
  ListRepo := fun _ _ _ => .ok fiveRepos
  ListBranches := fun _ _ => .ok [["master"], ["develop"]]
  ListIssues := fun _ _ => .ok [["#1", "crash on start"]]
  ListPullRequests := fun _ _ => .ok [["#2", "fix crash"]]
  Views := fun _ _ => .ok (["mon", "tue"], [3, 4])
  CountCommits := fun _ _ _ _ _ => .ok (["w1", "w2", "w3", "w4"], [5, 0, 2, 9])
  CountStars := fun _ _ _ => .ok (["d1", "d2"], [1, 2])
  AddTextBox := fun _ _ _ => none
  AddTable := fun _ _ _ => none
  AddBarChart := fun _ _ _ _ => none
  ExtractCountPeriod := platform.ExtractCountPeriod
  ConvertDates := platform.ConvertDates

/-- The world of `stubWorld` with a display whose three operations all fail. -/
def brokenDisplayWorld : World :=
  { stubWorld with
    AddTextBox := fun _ _ _ => some ⟨"invalid layout option"⟩
    AddTable := fun _ _ _ => some ⟨"invalid layout option"⟩
    AddBarChart := fun _ _ _ _ => some ⟨"invalid layout option"⟩ }

/-! ## Shapes of a run -/

/-- The default metric list of `tableRepo`. -/
def defaultMetrics : List String := ["name", "stars", "watchers", "forks", "open_issues"]

/-- A run without any collaborator call, ending in an error. -/
def Run.noCall (r : Run) : Prop :=
  r.collaboratorCalls = [] ∧ ∃ e, r.err = some e

/-- A run whose only collaborator call is a provider operation that failed,
ending in the error of the provider. -/
def Run.providerOnly (r : Run) (w : World) : Prop :=
  ∃ p e, r.collaboratorCalls = [p] ∧ p.isProvider = true ∧
    w.providerFailure p = some e ∧ r.err = some (.external e)

/-- A run whose collaborator calls are one provider operation that succeeded,
followed by one display operation. -/
def Run.providerThenDisplay (r : Run) (w : World) : Prop :=
  ∃ p d, r.collaboratorCalls = [p, d] ∧ p.isProvider = true ∧
    w.providerFailure p = none ∧ d.isDisplay = true

/-- The three shapes a run can have. -/
def Run.Shape (r : Run) (w : World) : Prop :=
  r.noCall ∨ r.providerOnly w ∨ r.providerThenDisplay w

/-! ## Lemmas on strings -/

theorem hasPrefix_append (p l : List Char) : hasPrefix p (p ++ l) = true := by
  induction p with
  | nil => cases l <;> rfl
  | cons a p ih => simp [hasPrefix, ih]

theorem containsList_of_hasPrefix (sub l : List Char) (h : hasPrefix sub l = true) :
    containsList sub l = true := by
  cases l with
  | nil => simpa [containsList] using h
  | cons c cs => simp [containsList, h]

theorem containsList_append (pre sub post : List Char) :
    containsList sub (pre ++ (sub ++ post)) = true := by
  induction pre with
  | nil => exact containsList_of_hasPrefix _ _ (hasPrefix_append sub post)
  | cons c cs ih =>
    simp only [List.cons_append, containsList, Bool.or_eq_true]
    exact Or.inr ih

/-- Go `strings.Contains` finds a string placed between any two others. -/
theorem Contains_middle (pre sub post : String) :
    Contains (pre ++ sub ++ post) sub = true := by
  simp only [Contains, String.data_append, List.append_assoc]
  exact containsList_append _ _ _

/-! ## Lemmas on numbers -/

theorem parseDigits_ok_digits (l : List Char) (n m : Nat) (h : parseDigits l n = .ok m) :
    l.all (fun d => decide ('0' ≤ d ∧ d ≤ '9')) = true := by
  induction l generalizing n with
  | nil => rfl
  | cons c cs ih =>
    unfold parseDigits at h
    split at h
    · rename_i hc
      split at h
      · cases h
      · dsimp only at h
        split at h
        · cases h
        · simp only [List.all_cons, Bool.and_eq_true, decide_eq_true_eq]
          exact ⟨hc, ih _ h⟩
    · cases h

/-- Text on which `strconv.ParseInt` succeeds is an optional sign followed by
one or more decimal digits; so on any other text it fails. -/
theorem ParseInt_ok_isDecimalNumeral (s : String) (n : Int) (h : ParseInt s = .ok n) :
    isDecimalNumeral s = true := by
  unfold ParseInt at h
  unfold isDecimalNumeral
  split at h
  · cases h
  · rename_i c cs hs
    dsimp only at h ⊢
    split at h
    · cases h
    · cases h
    · rename_i un hun
      unfold ParseUint at hun
      split at hun
      · cases hun
      · rename_i a as hbody
        have := parseDigits_ok_digits _ _ _ hun
        rw [hbody] at this ⊢
        simp only [List.isEmpty_cons, Bool.not_false, Bool.true_and]
        exact this

/-! ## The library models on sample inputs -/

/-- Samples of `strconv.ParseInt(s, 10, 0)`: signs, the 64-bit bounds, and the
inputs Go rejects (words, the empty string, a lone sign, an underscore). -/
theorem ParseInt_samples :
    ParseInt "3" = .ok 3 ∧ ParseInt "+7" = .ok 7 ∧ ParseInt "-12" = .ok (-12) ∧
    ParseInt "007" = .ok 7 ∧
    ParseInt "9223372036854775807" = .ok 9223372036854775807 ∧
    ParseInt "-9223372036854775808" = .ok (-9223372036854775808) ∧
    ParseInt "9223372036854775808" = .error ⟨"ParseInt", "9223372036854775808", .ErrRange⟩ ∧
    ParseInt "five" = .error ⟨"ParseInt", "five", .ErrSyntax⟩ ∧
    ParseInt "" = .error ⟨"ParseInt", "", .ErrSyntax⟩ ∧
    ParseInt "-" = .error ⟨"ParseInt", "-", .ErrSyntax⟩ ∧
    ParseInt "1_0" = .error ⟨"ParseInt", "1_0", .ErrSyntax⟩ ∧
    ParseInt " 3" = .error ⟨"ParseInt", " 3", .ErrSyntax⟩ := by
  refine ⟨rfl, rfl, rfl, rfl, rfl, rfl, rfl, rfl, rfl, rfl, rfl, rfl⟩

/-- Samples of `strings.TrimSpace`, `strings.Split`, `strings.Contains` and
`strconv.FormatInt`. -/
theorem strings_samples :
    TrimSpace "  a b \t\n" = "a b" ∧ TrimSpace "   " = "" ∧
    Split "" = [""] ∧ Split "a,b" = ["a", "b"] ∧ Split "a,,b," = ["a", "", "b", ""] ∧
    Contains "7_weeks_ago" "weeks_ago" = true ∧ Contains "5_days_ago" "weeks_ago" = false ∧
    Contains "abc" "" = true ∧ Contains "" "a" = false ∧
    FormatInt 0 = "0" ∧ FormatInt 120 = "120" ∧ FormatInt (-45) = "-45" := by
  refine ⟨by decide, by decide, by decide, by decide, by decide, by decide, by decide,
    by decide, by decide, by decide, by decide, by decide⟩

/-- Samples of `strconv.Quote`: plain text, a tab, a double quote, and the
control character 1. -/
theorem quote_samples :
    (quote "five").data = [Char.ofNat 34, 'f', 'i', 'v', 'e', Char.ofNat 34] ∧
    (quote "1\t2").data = [Char.ofNat 34, '1', Char.ofNat 92, 't', '2', Char.ofNat 34] ∧
    (quote (String.mk ['a', Char.ofNat 34])).data =
      [Char.ofNat 34, 'a', Char.ofNat 92, Char.ofNat 34, Char.ofNat 34] ∧
    (quote (String.mk [Char.ofNat 1])).data =
      [Char.ofNat 34, Char.ofNat 92, 'x', '0', '1', Char.ofNat 34] := by
  refine ⟨by decide, by decide, by decide, by decide⟩

/-- Samples of the date helpers modelled from the spec. -/
theorem platform_samples :
    platform.ExtractCountPeriod "4_weeks_ago" = .ok 4 ∧
    platform.ExtractCountPeriod "0_weeks_ago" = .ok 0 ∧
    platform.ExtractCountPeriod "5_wks_ago" = .error ⟨"malformed date expression 5_wks_ago"⟩ ∧
    platform.ExtractCountPeriod "abc_weeks_ago" =
      .error ⟨"malformed date expression abc_weeks_ago"⟩ ∧
    platform.ExtractCountPeriod "weeks_ago" = .error ⟨"malformed date expression weeks_ago"⟩ ∧
    platform.ConvertDates 19000 "today" "today" = .ok (19000, 19000) ∧
    platform.ConvertDates 19000 "7_days_ago" "today" = .ok (18993, 19000) := by
  refine ⟨rfl, rfl, rfl, rfl, rfl, rfl, rfl⟩

/-! ## The dispatcher -/

theorem CreateWidgets_boxStars (w : World) (widget : Widget) (h : widget.Name = githubBoxStars) :
    CreateWidgets w widget = boxStars w widget := by
  unfold CreateWidgets
  rw [h]
  rfl

theorem CreateWidgets_boxWatchers (w : World) (widget : Widget) (h : widget.Name = githubBoxWatchers) :
    CreateWidgets w widget = boxWatchers w widget := by
  unfold CreateWidgets
  rw [h]
  rfl

theorem CreateWidgets_boxOpenIssues (w : World) (widget : Widget) (h : widget.Name = githubBoxOpenIssues) :
    CreateWidgets w widget = boxOpenIssues w widget := by
  unfold CreateWidgets
  rw [h]
  rfl

theorem CreateWidgets_tableRepo (w : World) (widget : Widget) (h : widget.Name = githubTableRepositories) :
    CreateWidgets w widget = tableRepo w widget := by
  unfold CreateWidgets
  rw [h]
  rfl

theorem CreateWidgets_tableBranches (w : World) (widget : Widget) (h : widget.Name = githubTableBranches) :
    CreateWidgets w widget = tableBranches w widget := by
  unfold CreateWidgets
  rw [h]
  rfl

theorem CreateWidgets_tableIssues (w : World) (widget : Widget) (h : widget.Name = githubTableIssues) :
    CreateWidgets w widget = tableIssues w widget := by
  unfold CreateWidgets
  rw [h]
  rfl

theorem CreateWidgets_tablePullRequests (w : World) (widget : Widget) (h : widget.Name = githubTablePullRequests) :
    CreateWidgets w widget = tablePullRequests w widget := by
  unfold CreateWidgets
  rw [h]
  rfl

theorem CreateWidgets_barViews (w : World) (widget : Widget) (h : widget.Name = githubBarViews) :
    CreateWidgets w widget = barViews w widget := by
  unfold CreateWidgets
  rw [h]
  rfl

theorem CreateWidgets_barCommits (w : World) (widget : Widget) (h : widget.Name = githubBarCommits) :
    CreateWidgets w widget = barCommits w widget := by
  unfold CreateWidgets
  rw [h]
  rfl

theorem CreateWidgets_barStars (w : World) (widget : Widget) (h : widget.Name = githubBarStars) :
    CreateWidgets w widget = barStars w widget := by
  unfold CreateWidgets
  rw [h]
  rfl

/-- Case analysis on the `switch` of `CreateWidgets`: a property of the ten
handlers and of the `default` case is a property of the dispatcher. -/
theorem CreateWidgets_cases (P : Run → Prop) (w : World) (widget : Widget)
    (h1 : P (boxStars w widget)) (h2 : P (boxWatchers w widget))
    (h3 : P (boxOpenIssues w widget)) (h4 : P (tableRepo w widget))
    (h5 : P (tableBranches w widget)) (h6 : P (tableIssues w widget))
    (h7 : P (tablePullRequests w widget)) (h8 : P (barViews w widget))
    (h9 : P (barCommits w widget)) (h10 : P (barStars w widget))
    (h11 : widget.Name ∉ widgetNames → P ⟨[], some (.unknownWidget widget.Name)⟩) :
    P (CreateWidgets w widget) := by
  unfold CreateWidgets
  by_cases c1 : widget.Name = githubBoxStars
  · rw [if_pos c1]; exact h1
  rw [if_neg c1]
  by_cases c2 : widget.Name = githubBoxWatchers
  · rw [if_pos c2]; exact h2
  rw [if_neg c2]
  by_cases c3 : widget.Name = githubBoxOpenIssues
  · rw [if_pos c3]; exact h3
  rw [if_neg c3]
  by_cases c4 : widget.Name = githubTableRepositories
  · rw [if_pos c4]; exact h4
  rw [if_neg c4]
  by_cases c5 : widget.Name = githubTableBranches
  · rw [if_pos c5]; exact h5
  rw [if_neg c5]
  by_cases c6 : widget.Name = githubTableIssues
  · rw [if_pos c6]; exact h6
  rw [if_neg c6]
  by_cases c7 : widget.Name = githubTablePullRequests
  · rw [if_pos c7]; exact h7
  rw [if_neg c7]
  by_cases c8 : widget.Name = githubBarViews
  · rw [if_pos c8]; exact h8
  rw [if_neg c8]
  by_cases c9 : widget.Name = githubBarCommits
  · rw [if_pos c9]; exact h9
  rw [if_neg c9]
  by_cases c10 : widget.Name = githubBarStars
  · rw [if_pos c10]; exact h10
  rw [if_neg c10]
  apply h11
  simp only [widgetNames, List.mem_cons, List.mem_singleton, List.not_mem_nil, or_false,
    not_or]
  exact ⟨c1, c2, c3, c4, c5, c6, c7, c8, c9, c10⟩

/-- The `default` case is reached by every name outside the ten. -/
theorem CreateWidgets_unknown (w : World) (widget : Widget) (h : widget.Name ∉ widgetNames) :
    CreateWidgets w widget = ⟨[], some (.unknownWidget widget.Name)⟩ := by
  simp only [widgetNames, List.mem_cons, List.mem_singleton, List.not_mem_nil, or_false,
    not_or] at h
  obtain ⟨h1, h2, h3, h4, h5, h6, h7, h8, h9, h10⟩ := h
  unfold CreateWidgets
  rw [if_neg h1, if_neg h2, if_neg h3, if_neg h4, if_neg h5, if_neg h6, if_neg h7, if_neg h8,
    if_neg h9, if_neg h10]

/-! ## Errors made by the handlers -/

theorem showBox_not_unknown (w : World) (c : Call) (n : Int) (t : String) (o : OptionBag)
    (name : String) : (showBox w c n t o).err ≠ some (.unknownWidget name) := by
  unfold showBox
  dsimp only
  split <;> simp

theorem rowLimit_not_unknown (o : OptionBag) (name : String) :
    rowLimit o ≠ .error (.unknownWidget name) := by
  unfold rowLimit
  split
  · split <;> simp
  · simp

theorem boxStars_not_unknown (w : World) (widget : Widget) (name : String) :
    (boxStars w widget).err ≠ some (.unknownWidget name) := by
  unfold boxStars
  dsimp only
  split
  · simp
  · exact showBox_not_unknown _ _ _ _ _ _

theorem boxWatchers_not_unknown (w : World) (widget : Widget) (name : String) :
    (boxWatchers w widget).err ≠ some (.unknownWidget name) := by
  unfold boxWatchers
  dsimp only
  split
  · simp
  · exact showBox_not_unknown _ _ _ _ _ _

theorem boxOpenIssues_not_unknown (w : World) (widget : Widget) (name : String) :
    (boxOpenIssues w widget).err ≠ some (.unknownWidget name) := by
  unfold boxOpenIssues
  dsimp only
  split
  · simp
  · exact showBox_not_unknown _ _ _ _ _ _

theorem tableRepo_not_unknown (w : World) (widget : Widget) (name : String) :
    (tableRepo w widget).err ≠ some (.unknownWidget name) := by
  have hrow := rowLimit_not_unknown widget.Options name
  unfold tableRepo
  dsimp only
  split
  · rename_i e he
    intro h
    simp only [Option.some.injEq] at h
    exact hrow (h ▸ he)
  · split <;> simp

theorem tableBranches_not_unknown (w : World) (widget : Widget) (name : String) :
    (tableBranches w widget).err ≠ some (.unknownWidget name) := by
  have hrow := rowLimit_not_unknown widget.Options name
  unfold tableBranches
  dsimp only
  split
  · rename_i e he
    intro h
    simp only [Option.some.injEq] at h
    exact hrow (h ▸ he)
  · split <;> simp

theorem tableIssues_not_unknown (w : World) (widget : Widget) (name : String) :
    (tableIssues w widget).err ≠ some (.unknownWidget name) := by
  have hrow := rowLimit_not_unknown widget.Options name
  unfold tableIssues
  dsimp only
  split
  · rename_i e he
    intro h
    simp only [Option.some.injEq] at h
    exact hrow (h ▸ he)
  · split <;> simp

theorem tablePullRequests_not_unknown (w : World) (widget : Widget) (name : String) :
    (tablePullRequests w widget).err ≠ some (.unknownWidget name) := by
  have hrow := rowLimit_not_unknown widget.Options name
  unfold tablePullRequests
  dsimp only
  split
  · rename_i e he
    intro h
    simp only [Option.some.injEq] at h
    exact hrow (h ▸ he)
  · split <;> simp

theorem barViews_not_unknown (w : World) (widget : Widget) (name : String) :
    (barViews w widget).err ≠ some (.unknownWidget name) := by
  unfold barViews
  dsimp only
  split <;> simp

theorem barCommits_not_unknown (w : World) (widget : Widget) (name : String) :
    (barCommits w widget).err ≠ some (.unknownWidget name) := by
  unfold barCommits
  dsimp only
  split
  · simp
  · split
    · simp
    · split
      · simp
      · split <;> simp

theorem barStars_not_unknown (w : World) (widget : Widget) (name : String) :
    (barStars w widget).err ≠ some (.unknownWidget name) := by
  unfold barStars
  dsimp only
  split
  · simp
  · split <;> simp

/-! ## C1: unknown widget names -/

/-- C1: `CreateWidgets` returns the error of the `default` case of its `switch`
if and only if `widget.Name` is not one of the ten widget names; for such a
name it makes no call at all (no provider operation, no display operation, no
date helper), the error is the one made for that very name, and its message
contains the name and the service name `github`. -/
theorem CreateWidgets_unknown_widget_iff (w : World) (widget : Widget) :
    ((∃ name, (CreateWidgets w widget).err = some (.unknownWidget name)) ↔
      widget.Name ∉ widgetNames) ∧
    (widget.Name ∉ widgetNames →
      (CreateWidgets w widget).trace = [] ∧
      (CreateWidgets w widget).err = some (.unknownWidget widget.Name) ∧
      Contains (WidgetError.unknownWidget widget.Name).Error widget.Name = true ∧
      Contains (WidgetError.unknownWidget widget.Name).Error "github" = true) := by
  refine ⟨⟨?_, ?_⟩, ?_⟩
  · rintro ⟨name, hname⟩ hmem
    revert hname
    refine CreateWidgets_cases (fun r => r.err ≠ some (.unknownWidget name)) w widget
      (boxStars_not_unknown w widget name) (boxWatchers_not_unknown w widget name) (boxOpenIssues_not_unknown w widget name)
      (tableRepo_not_unknown w widget name) (tableBranches_not_unknown w widget name) (tableIssues_not_unknown w widget name)
      (tablePullRequests_not_unknown w widget name) (barViews_not_unknown w widget name) (barCommits_not_unknown w widget name)
      (barStars_not_unknown w widget name) ?_
    intro hnot
    exact absurd hmem hnot
  · intro h
    exact ⟨widget.Name, by rw [CreateWidgets_unknown w widget h]⟩
  · intro h
    rw [CreateWidgets_unknown w widget h]
    refine ⟨rfl, rfl, ?_, ?_⟩
    · exact Contains_middle "can't find the widget " widget.Name " for service github"
    · have := Contains_middle ("can't find the widget " ++ widget.Name ++ " for service ")
        "github" ""
      simpa [WidgetError.Error, String.append_assoc] using this

/-- C1 at the name `github.box_unicorn`: no call, the unknown-widget error for
that name, whose message names the widget and the service. -/
theorem CreateWidgets_unknown_widget_witness :
    (CreateWidgets stubWorld ⟨"github.box_unicorn", []⟩).trace = [] ∧
    (CreateWidgets stubWorld ⟨"github.box_unicorn", []⟩).err =
      some (.unknownWidget "github.box_unicorn") ∧
    Contains (WidgetError.unknownWidget "github.box_unicorn").Error "github.box_unicorn" = true ∧
    Contains (WidgetError.unknownWidget "github.box_unicorn").Error "github" = true :=
  (CreateWidgets_unknown_widget_iff stubWorld ⟨"github.box_unicorn", []⟩).2 (by decide)

/-! ## C2: a row limit that is not a number -/

/-- Go `strings.Contains` finds a string at the start of a longer one. -/
theorem Contains_start (sub post : String) : Contains (sub ++ post) sub = true := by
  simp only [Contains, String.data_append]
  exact containsList_of_hasPrefix _ _ (hasPrefix_append _ _)

theorem rowLimit_of_parse_error (o : OptionBag) (v : String) (cause : NumError)
    (hv : o.lookup optionRowLimit = some v) (hp : ParseInt v = .error cause) :
    rowLimit o = .error (.mustBeNumber v cause) := by
  simp [rowLimit, OptionBag.has, OptionBag.get, hv, hp]

/-- C2: in each of the four table widgets, when the row-limit key is present
with a value on which `strconv.ParseInt` (base 10) fails, `CreateWidgets` makes
no call at all (neither provider nor display) and returns the wrapped parse
error, whose message contains the raw value. -/
theorem table_row_limit_not_a_number (w : World) (widget : Widget) (v : String)
    (hname : widget.Name ∈ [githubTableRepositories, githubTableBranches, githubTableIssues,
      githubTablePullRequests])
    (hv : widget.Options.lookup optionRowLimit = some v)
    (hparse : ∀ n, ParseInt v ≠ .ok n) :
    ∃ cause, ParseInt v = .error cause ∧
      CreateWidgets w widget = ⟨[], some (.mustBeNumber v cause)⟩ ∧
      Contains (WidgetError.mustBeNumber v cause).Error v = true := by
  cases hp : ParseInt v with
  | ok n => exact absurd hp (hparse n)
  | error cause =>
    have hrow := rowLimit_of_parse_error widget.Options v cause hv hp
    refine ⟨cause, rfl, ?_, ?_⟩
    · simp only [List.mem_cons, List.mem_singleton, List.not_mem_nil, or_false] at hname
      rcases hname with h | h | h | h
      · rw [CreateWidgets_tableRepo w widget h]
        simp only [tableRepo, hrow]
      · rw [CreateWidgets_tableBranches w widget h]
        simp only [tableBranches, hrow]
      · rw [CreateWidgets_tableIssues w widget h]
        simp only [tableIssues, hrow]
      · rw [CreateWidgets_tablePullRequests w widget h]
        simp only [tablePullRequests, hrow]
    · simp only [WidgetError.Error, String.append_assoc]
      exact Contains_start v _

/-- C2 at `row_limit = "five"` for the repository table. -/
theorem table_row_limit_not_a_number_witness :
    ∃ cause, ParseInt "five" = .error cause ∧
      CreateWidgets stubWorld ⟨"github.table_repositories", [("row_limit", "five")]⟩ =
        ⟨[], some (.mustBeNumber "five" cause)⟩ ∧
      Contains (WidgetError.mustBeNumber "five" cause).Error "five" = true :=
  table_row_limit_not_a_number stubWorld
    ⟨"github.table_repositories", [("row_limit", "five")]⟩ "five" (by decide) (by decide)
    (by intro n h; exact absurd h (by rw [show ParseInt "five" =
      .error ⟨"ParseInt", "five", .ErrSyntax⟩ from rfl]; simp))

/-! ## C3: the repository table with its defaults -/

theorem rowLimit_of_parse_ok (o : OptionBag) (v : String) (n : Int)
    (hv : o.lookup optionRowLimit = some v) (hp : ParseInt v = .ok n) :
    rowLimit o = .ok n := by
  simp [rowLimit, OptionBag.has, OptionBag.get, hv, hp]

theorem rowLimit_absent (o : OptionBag) (hv : o.lookup optionRowLimit = none) :
    rowLimit o = .ok 5 := by
  simp [rowLimit, OptionBag.has, hv]

theorem repoMetrics_absent (o : OptionBag) (h : o.lookup optionMetrics = none) :
    repoMetrics o = defaultMetrics := by
  simp [repoMetrics, OptionBag.has, h, defaultMetrics]

theorem repoOrder_absent (o : OptionBag) (h : o.lookup optionOrder = none) :
    repoOrder o = "pushed" := by
  simp [repoOrder, OptionBag.has, h]

/-- C3, as the code has it: with `row_limit = "3"` and a provider that answers
five repositories (at least 3), the provider is asked with limit 3, the
default metrics and the order `pushed`, and the table operation of the display
receives all five rows, not 3. -/
theorem tableRepo_rows_not_cut :
    ParseInt "3" = .ok 3 ∧
    stubWorld.ListRepo 3 "pushed" defaultMetrics = .ok fiveRepos ∧
    3 ≤ fiveRepos.length ∧
    CreateWidgets stubWorld ⟨"github.table_repositories", [("row_limit", "3")]⟩ =
      ⟨[.ListRepo 3 "pushed" defaultMetrics,
        .AddTable fiveRepos " Github Repositories " [("row_limit", "3")]], none⟩ ∧
    fiveRepos.length ≠ 3 := by
  refine ⟨rfl, rfl, by decide, by decide, by decide⟩

/-- C3 (amended): for every option bag whose row-limit value parses to an
integer `n` and that has no metrics and no order key, and for every provider,
`github.table_repositories` asks the provider for the repositories with limit
`n`, order `pushed` and the default metric list; when the provider fails that
is the only call and its error is returned, and when it answers rows `rs` the
table operation of the display receives exactly `rs` (all of them, in the same
order) with the resolved title and the option bag. -/
theorem tableRepo_defaults (w : World) (widget : Widget) (v : String) (n : Int)
    (hname : widget.Name = githubTableRepositories)
    (hv : widget.Options.lookup optionRowLimit = some v)
    (hn : ParseInt v = .ok n)
    (hm : widget.Options.lookup optionMetrics = none)
    (ho : widget.Options.lookup optionOrder = none) :
    CreateWidgets w widget =
      match w.ListRepo n "pushed" defaultMetrics with
      | .error e => ⟨[.ListRepo n "pushed" defaultMetrics], some (.external e)⟩
      | .ok rs =>
        ⟨[.ListRepo n "pushed" defaultMetrics,
          .AddTable rs (widget.Options.getOr optionTitle " Github Repositories ")
            widget.Options], none⟩ := by
  rw [CreateWidgets_tableRepo w widget hname]
  simp only [tableRepo, rowLimit_of_parse_ok _ v n hv hn, repoMetrics_absent _ hm,
    repoOrder_absent _ ho]

/-- C3 (amended) at `row_limit = "3"` with the provider that answers five rows. -/
theorem tableRepo_defaults_witness :
    CreateWidgets stubWorld ⟨"github.table_repositories", [("row_limit", "3")]⟩ =
      match stubWorld.ListRepo 3 "pushed" defaultMetrics with
      | .error e => ⟨[.ListRepo 3 "pushed" defaultMetrics], some (.external e)⟩
      | .ok rs =>
        ⟨[.ListRepo 3 "pushed" defaultMetrics,
          .AddTable rs (OptionBag.getOr [("row_limit", "3")] optionTitle
            " Github Repositories ") [("row_limit", "3")]], none⟩ :=
  tableRepo_defaults stubWorld ⟨"github.table_repositories", [("row_limit", "3")]⟩ "3" 3
    rfl (by decide) rfl (by decide) (by decide)

/-! ## C4: the sort key of the repository table -/

/-- C4, as the code has it: with `order = "stars"` and `row_limit = "3"` the
sort key given to the provider is `3`, the value under the row-limit key; with
`order = "stars"` alone it is the empty string. The value `stars` is never
passed. -/
theorem tableRepo_order_reads_row_limit :
    (CreateWidgets stubWorld
      ⟨"github.table_repositories", [("order", "stars"), ("row_limit", "3")]⟩).trace =
      [.ListRepo 3 "3" defaultMetrics,
       .AddTable fiveRepos " Github Repositories " [("order", "stars"), ("row_limit", "3")]] ∧
    (CreateWidgets stubWorld ⟨"github.table_repositories", [("order", "stars")]⟩).trace =
      [.ListRepo 5 "" defaultMetrics,
       .AddTable fiveRepos " Github Repositories " [("order", "stars")]] := by
  refine ⟨by decide, by decide⟩

/-! ## C5: a blank metrics value -/

/-- C5, as the code has it: an empty metrics value gives the default metric
list, but a metrics value of three spaces passes the length test, is trimmed
to the empty string and split, so the provider receives the list whose only
element is the empty metric name. -/
theorem tableRepo_blank_metrics :
    (CreateWidgets stubWorld ⟨"github.table_repositories", [("metrics", "")]⟩).trace =
      [.ListRepo 5 "pushed" defaultMetrics,
       .AddTable fiveRepos " Github Repositories " [("metrics", "")]] ∧
    (CreateWidgets stubWorld ⟨"github.table_repositories", [("metrics", "   ")]⟩).trace =
      [.ListRepo 5 "pushed" [""],
       .AddTable fiveRepos " Github Repositories " [("metrics", "   ")]] := by
  refine ⟨by decide, by decide⟩

/-! ## C6: the metrics value, split -/

theorem TrimSpace_empty : TrimSpace "" = "" := by decide

theorem length_pos_of_TrimSpace_ne (v : String) (h : TrimSpace v ≠ "") : v.length > 0 := by
  by_contra hlen
  have h0 : v.length = 0 := by omega
  have hv : v = "" := by
    cases v with
    | mk data =>
      have : data = [] := List.length_eq_zero.mp h0
      subst this
      rfl
  exact h (hv ▸ TrimSpace_empty)

theorem repoMetrics_present (o : OptionBag) (v : String)
    (hv : o.lookup optionMetrics = some v) (hlen : v.length > 0) :
    repoMetrics o = Split (TrimSpace v) := by
  simp [repoMetrics, OptionBag.has, OptionBag.get, hv, hlen]

/-- C6, as the code has it: the metrics value `name, stars` reaches the
provider as `name` and ` stars`, the second with its leading space, not as
`name` and `stars`. -/
theorem tableRepo_metrics_elements_not_trimmed :
    (CreateWidgets stubWorld ⟨"github.table_repositories", [("metrics", "name, stars")]⟩).trace =
      [.ListRepo 5 "pushed" ["name", " stars"],
       .AddTable fiveRepos " Github Repositories " [("metrics", "name, stars")]] ∧
    ["name", " stars"] ≠ ["name", "stars"] := by
  refine ⟨by decide, by decide⟩

/-- C6 (amended): in the repository-table handler, for every option bag whose
metrics value `v` is present and not blank, and whose row limit resolves to
`limit`, the first call is the repository listing of the provider, and its
metric list is `v` trimmed of surrounding white space and split at every
comma; the elements are passed as split, without being trimmed one by one. -/
theorem tableRepo_metrics_split (w : World) (widget : Widget) (v : String) (limit : Int)
    (hname : widget.Name = githubTableRepositories)
    (hv : widget.Options.lookup optionMetrics = some v)
    (hblank : TrimSpace v ≠ "")
    (hlimit : rowLimit widget.Options = .ok limit) :
    (CreateWidgets w widget).trace.head? =
      some (.ListRepo limit (repoOrder widget.Options) (Split (TrimSpace v))) := by
  rw [CreateWidgets_tableRepo w widget hname]
  simp only [tableRepo, hlimit,
    repoMetrics_present _ v hv (length_pos_of_TrimSpace_ne v hblank)]
  split <;> rfl

/-- C6 (amended) at `metrics = "name, stars"`. -/
theorem tableRepo_metrics_split_witness :
    (CreateWidgets stubWorld ⟨"github.table_repositories", [("metrics", "name, stars")]⟩).trace.head? =
      some (.ListRepo 5 (repoOrder [("metrics", "name, stars")])
        (Split (TrimSpace "name, stars"))) :=
  tableRepo_metrics_split stubWorld ⟨"github.table_repositories", [("metrics", "name, stars")]⟩
    "name, stars" 5 rfl (by decide) (by decide) (by rfl)

/-! ## C7: the commit bar chart -/

/-- C7: when the start and end date values of `github.bar_commits` (the
defaults `7_weeks_ago` and `0_weeks_ago` when absent) contain `weeks_ago` and
the period extractor gives `a` and `b` on them, the only provider call is the
bucketed commit count with the repository option (empty when absent), the
scope option (`ownerScope` when absent), `a` and `b` in that order and the
current instant; when the provider answers `(dim, counts)` the one display
call is the bar chart with these very values, the resolved title and the
option bag, and the handler returns no error; when the provider fails its
error is returned and nothing is displayed. -/
theorem barCommits_forwards (w : World) (widget : Widget) (a b : Int)
    (hname : widget.Name = githubBarCommits)
    (hsd : Contains (widget.Options.getOr optionStartDate "7_weeks_ago") "weeks_ago" = true)
    (hed : Contains (widget.Options.getOr optionEndDate "0_weeks_ago") "weeks_ago" = true)
    (ha : w.ExtractCountPeriod (widget.Options.getOr optionStartDate "7_weeks_ago") = .ok a)
    (hb : w.ExtractCountPeriod (widget.Options.getOr optionEndDate "0_weeks_ago") = .ok b) :
    CreateWidgets w widget =
      match w.CountCommits (widget.Options.getOr optionRepository "")
          (widget.Options.getOr optionScope ownerScope) a b w.now with
      | .error e =>
        ⟨[.ExtractCountPeriod (widget.Options.getOr optionStartDate "7_weeks_ago"),
          .ExtractCountPeriod (widget.Options.getOr optionEndDate "0_weeks_ago"),
          .CountCommits (widget.Options.getOr optionRepository "")
            (widget.Options.getOr optionScope ownerScope) a b w.now],
         some (.external e)⟩
      | .ok (dim, counts) =>
        ⟨[.ExtractCountPeriod (widget.Options.getOr optionStartDate "7_weeks_ago"),
          .ExtractCountPeriod (widget.Options.getOr optionEndDate "0_weeks_ago"),
          .CountCommits (widget.Options.getOr optionRepository "")
            (widget.Options.getOr optionScope ownerScope) a b w.now,
          .AddBarChart counts dim
            (widget.Options.getOr optionTitle " Github Commit Per Week ") widget.Options],
         none⟩ := by
  rw [CreateWidgets_barCommits w widget hname]
  simp only [barCommits, hsd, hed, ha, hb]
  simp

/-- C7 at `start_date = "4_weeks_ago"`, `end_date = "0_weeks_ago"`: the
magnitudes are 4 and 0, and the labels and counts of the provider reach the
bar chart unchanged. -/
theorem barCommits_forwards_witness :
    CreateWidgets stubWorld ⟨"github.bar_commits",
        [("start_date", "4_weeks_ago"), ("end_date", "0_weeks_ago")]⟩ =
      ⟨[.ExtractCountPeriod "4_weeks_ago", .ExtractCountPeriod "0_weeks_ago",
        .CountCommits "" "owner" 4 0 19000,
        .AddBarChart [5, 0, 2, 9] ["w1", "w2", "w3", "w4"] " Github Commit Per Week "
          [("start_date", "4_weeks_ago"), ("end_date", "0_weeks_ago")]], none⟩ :=
  barCommits_forwards stubWorld
    ⟨"github.bar_commits", [("start_date", "4_weeks_ago"), ("end_date", "0_weeks_ago")]⟩ 4 0
    rfl (by decide) (by decide) (by rfl) (by rfl)

/-! ## C8: who checks the unit of a date -/

/-- C8, as the code has it: `github.bar_stars` with `start_date = "5_weeks_ago"`
does call the date converter, with the raw strings, and the error it returns
is the one of the converter; and with no date option at all the end date is
`today`, which contains no `days` token, yet the run calls the provider and
the display and returns no error. -/
theorem barStars_has_no_unit_check :
    CreateWidgets stubWorld ⟨"github.bar_stars", [("start_date", "5_weeks_ago")]⟩ =
      ⟨[.ConvertDates 19000 "5_weeks_ago" "today"],
       some (.external ⟨"malformed date expression 5_weeks_ago"⟩)⟩ ∧
    Contains "today" "days" = false ∧
    CreateWidgets stubWorld ⟨"github.bar_stars", []⟩ =
      ⟨[.ConvertDates 19000 "7_days_ago" "today", .CountStars "" 18993 19000,
        .AddBarChart [1, 2] ["d1", "d2"] " Github Stars " []], none⟩ := by
  refine ⟨by decide, by decide, by decide⟩

/-- C8 (amended): `github.bar_commits` checks the raw date strings itself:
when the start or the end date value (defaults `7_weeks_ago`, `0_weeks_ago`)
does not contain `weeks_ago` it makes no call at all, neither to the period
extractor nor to the provider, and returns its own week-range error.
`github.bar_stars` has no check of its own: its first call is always the date
converter, on the raw start and end strings (defaults `7_days_ago`, `today`),
and when the converter fails that call is the only one and the error of the
converter is returned, so the provider is not called. -/
theorem date_unit_validation (w : World) (widget : Widget) :
    (widget.Name = githubBarCommits →
      (Contains (widget.Options.getOr optionStartDate "7_weeks_ago") "weeks_ago" = false ∨
       Contains (widget.Options.getOr optionEndDate "0_weeks_ago") "weeks_ago" = false) →
      CreateWidgets w widget = ⟨[], some .weekRange⟩) ∧
    (widget.Name = githubBarStars →
      (CreateWidgets w widget).trace.head? =
        some (.ConvertDates w.now (widget.Options.getOr optionStartDate "7_days_ago")
          (widget.Options.getOr optionEndDate "today")) ∧
      ∀ e, w.ConvertDates w.now (widget.Options.getOr optionStartDate "7_days_ago")
          (widget.Options.getOr optionEndDate "today") = .error e →
        CreateWidgets w widget =
          ⟨[.ConvertDates w.now (widget.Options.getOr optionStartDate "7_days_ago")
            (widget.Options.getOr optionEndDate "today")], some (.external e)⟩) := by
  constructor
  · intro hname h
    rw [CreateWidgets_barCommits w widget hname]
    rcases h with h | h
    · simp [barCommits, h]
    · simp [barCommits, h]
  · intro hname
    rw [CreateWidgets_barStars w widget hname]
    constructor
    · unfold barStars
      dsimp only
      split
      · rfl
      · split <;> rfl
    · intro e he
      simp only [barStars, he]

/-- C8 (amended) at `github.bar_commits` with `start_date = "5_days_ago"` and at
`github.bar_stars` with `start_date = "5_weeks_ago"`. -/
theorem date_unit_validation_witness :
    CreateWidgets stubWorld ⟨"github.bar_commits", [("start_date", "5_days_ago")]⟩ =
      ⟨[], some .weekRange⟩ ∧
    CreateWidgets stubWorld ⟨"github.bar_stars", [("start_date", "5_weeks_ago")]⟩ =
      ⟨[.ConvertDates 19000 "5_weeks_ago" "today"],
       some (.external ⟨"malformed date expression 5_weeks_ago"⟩)⟩ :=
  ⟨(date_unit_validation stubWorld
      ⟨"github.bar_commits", [("start_date", "5_days_ago")]⟩).1 rfl (Or.inl (by decide)),
   ((date_unit_validation stubWorld
      ⟨"github.bar_stars", [("start_date", "5_weeks_ago")]⟩).2 rfl).2
      ⟨"malformed date expression 5_weeks_ago"⟩ (by rfl)⟩

/-! ## C9: failures of the display -/

theorem showBox_failure (w : World) (c : Call) (n : Int) (t : String) (o : OptionBag)
    (e : ExternalError) (h : w.AddTextBox (FormatInt n) t o = some e) :
    showBox w c n t o = ⟨[c, .AddTextBox (FormatInt n) t o], some (.external e)⟩ := by
  simp only [showBox, h]

/-- The three box handlers return the failure of the text box: when the
provider answers a count and the text box fails with `e`, the run is the
provider call, the text box call, and the error `e`, unchanged. -/
theorem box_display_failure_returned (w : World) (widget : Widget) (n : Int)
    (e : ExternalError) :
    (w.TotalStars (widget.Options.getOr optionRepository "") = .ok n →
      w.AddTextBox (FormatInt n)
        (widget.Options.getOr optionTitle
          (" Github Stars for " ++ widget.Options.getOr optionRepository ""))
        widget.Options = some e →
      (boxStars w widget).err = some (.external e)) ∧
    (w.TotalWatchers (widget.Options.getOr optionRepository "") = .ok n →
      w.AddTextBox (FormatInt n) (widget.Options.getOr optionTitle " Github Watchers ")
        widget.Options = some e →
      (boxWatchers w widget).err = some (.external e)) ∧
    (w.TotalOpenIssues (widget.Options.getOr optionRepository "") = .ok n →
      w.AddTextBox (FormatInt n) (widget.Options.getOr optionTitle " Github Open Issues ")
        widget.Options = some e →
      (boxOpenIssues w widget).err = some (.external e)) := by
  refine ⟨?_, ?_, ?_⟩
  · intro hp hd
    simp only [boxStars, hp, showBox_failure w _ n _ _ e hd]
  · intro hp hd
    simp only [boxWatchers, hp, showBox_failure w _ n _ _ e hd]
  · intro hp hd
    simp only [boxOpenIssues, hp, showBox_failure w _ n _ _ e hd]

/-- No run of `CreateWidgets` depends on what the table and bar chart
operations of the display report: replacing them by any others gives the same
calls and the same returned error. -/
theorem CreateWidgets_ignores_table_and_bar_reports (w : World) (widget : Widget)
    (f : Rows → String → OptionBag → Option ExternalError)
    (g : List Int → List String → String → OptionBag → Option ExternalError) :
    CreateWidgets { w with AddTable := f, AddBarChart := g } widget =
      CreateWidgets w widget := by
  rfl

/-- C9, at a display whose three operations fail with `invalid layout option`
while the provider succeeds: `github.table_repositories` calls the table
operation and `github.bar_views` the bar chart operation, both operations fail,
and both runs return no error, where the claim has the failure returned. On
the same display `github.box_stars` does return the failure of its text box,
as the claim says. -/
theorem table_and_bar_ignore_display_failure :
    CreateWidgets brokenDisplayWorld ⟨"github.table_repositories", []⟩ =
      ⟨[.ListRepo 5 "pushed" defaultMetrics,
        .AddTable fiveRepos " Github Repositories " []], none⟩ ∧
    brokenDisplayWorld.displayFailure (.AddTable fiveRepos " Github Repositories " []) =
      some ⟨"invalid layout option"⟩ ∧
    CreateWidgets brokenDisplayWorld ⟨"github.bar_views", []⟩ =
      ⟨[.Views "" 0, .AddBarChart [3, 4] ["mon", "tue"] " Github Views " []], none⟩ ∧
    brokenDisplayWorld.displayFailure (.AddBarChart [3, 4] ["mon", "tue"] " Github Views " []) =
      some ⟨"invalid layout option"⟩ ∧
    CreateWidgets brokenDisplayWorld ⟨"github.box_stars", []⟩ =
      ⟨[.TotalStars "", .AddTextBox "900" " Github Stars for " []],
       some (.external ⟨"invalid layout option"⟩)⟩ := by
  refine ⟨by decide, by decide, by decide, by decide, by decide⟩

/-! ## C10: one query, one render -/

theorem boxStars_shape (w : World) (widget : Widget) : (boxStars w widget).Shape w := by
  unfold boxStars
  dsimp only
  split
  · rename_i e he
    exact Or.inr (Or.inl ⟨_, _, rfl, rfl, by simp [World.providerFailure, failureOf, he], rfl⟩)
  · rename_i n he
    unfold showBox
    dsimp only
    split <;> exact Or.inr (Or.inr ⟨_, _, rfl, rfl, by simp [World.providerFailure, failureOf, he], rfl⟩)

theorem boxWatchers_shape (w : World) (widget : Widget) : (boxWatchers w widget).Shape w := by
  unfold boxWatchers
  dsimp only
  split
  · rename_i e he
    exact Or.inr (Or.inl ⟨_, _, rfl, rfl, by simp [World.providerFailure, failureOf, he], rfl⟩)
  · rename_i n he
    unfold showBox
    dsimp only
    split <;> exact Or.inr (Or.inr ⟨_, _, rfl, rfl, by simp [World.providerFailure, failureOf, he], rfl⟩)

theorem boxOpenIssues_shape (w : World) (widget : Widget) : (boxOpenIssues w widget).Shape w := by
  unfold boxOpenIssues
  dsimp only
  split
  · rename_i e he
    exact Or.inr (Or.inl ⟨_, _, rfl, rfl, by simp [World.providerFailure, failureOf, he], rfl⟩)
  · rename_i n he
    unfold showBox
    dsimp only
    split <;> exact Or.inr (Or.inr ⟨_, _, rfl, rfl, by simp [World.providerFailure, failureOf, he], rfl⟩)

theorem tableRepo_shape (w : World) (widget : Widget) : (tableRepo w widget).Shape w := by
  unfold tableRepo
  dsimp only
  split
  · exact Or.inl ⟨rfl, _, rfl⟩
  · split
    · rename_i e he
      exact Or.inr (Or.inl ⟨_, _, rfl, rfl, by simp [World.providerFailure, failureOf, he], rfl⟩)
    · rename_i rs he
      exact Or.inr (Or.inr ⟨_, _, rfl, rfl, by simp [World.providerFailure, failureOf, he], rfl⟩)

theorem tableBranches_shape (w : World) (widget : Widget) : (tableBranches w widget).Shape w := by
  unfold tableBranches
  dsimp only
  split
  · exact Or.inl ⟨rfl, _, rfl⟩
  · split
    · rename_i e he
      exact Or.inr (Or.inl ⟨_, _, rfl, rfl, by simp [World.providerFailure, failureOf, he], rfl⟩)
    · rename_i rs he
      exact Or.inr (Or.inr ⟨_, _, rfl, rfl, by simp [World.providerFailure, failureOf, he], rfl⟩)

theorem tableIssues_shape (w : World) (widget : Widget) : (tableIssues w widget).Shape w := by
  unfold tableIssues
  dsimp only
  split
  · exact Or.inl ⟨rfl, _, rfl⟩
  · split
    · rename_i e he
      exact Or.inr (Or.inl ⟨_, _, rfl, rfl, by simp [World.providerFailure, failureOf, he], rfl⟩)
    · rename_i rs he
      exact Or.inr (Or.inr ⟨_, _, rfl, rfl, by simp [World.providerFailure, failureOf, he], rfl⟩)

theorem tablePullRequests_shape (w : World) (widget : Widget) : (tablePullRequests w widget).Shape w := by
  unfold tablePullRequests
  dsimp only
  split
  · exact Or.inl ⟨rfl, _, rfl⟩
  · split
    · rename_i e he
      exact Or.inr (Or.inl ⟨_, _, rfl, rfl, by simp [World.providerFailure, failureOf, he], rfl⟩)
    · rename_i rs he
      exact Or.inr (Or.inr ⟨_, _, rfl, rfl, by simp [World.providerFailure, failureOf, he], rfl⟩)

theorem barViews_shape (w : World) (widget : Widget) : (barViews w widget).Shape w := by
  unfold barViews
  dsimp only
  split
  · rename_i e he
    exact Or.inr (Or.inl ⟨_, _, rfl, rfl, by simp [World.providerFailure, failureOf, he], rfl⟩)
  · rename_i dim counts he
    exact Or.inr (Or.inr ⟨_, _, rfl, rfl, by simp [World.providerFailure, failureOf, he], rfl⟩)

theorem barCommits_shape (w : World) (widget : Widget) : (barCommits w widget).Shape w := by
  unfold barCommits
  dsimp only
  split
  · exact Or.inl ⟨rfl, _, rfl⟩
  · split
    · exact Or.inl ⟨rfl, _, rfl⟩
    · split
      · exact Or.inl ⟨rfl, _, rfl⟩
      · split
        · rename_i e he
          exact Or.inr (Or.inl ⟨_, _, rfl, rfl, by simp [World.providerFailure, failureOf, he], rfl⟩)
        · rename_i dim counts he
          exact Or.inr (Or.inr ⟨_, _, rfl, rfl, by simp [World.providerFailure, failureOf, he], rfl⟩)

theorem barStars_shape (w : World) (widget : Widget) : (barStars w widget).Shape w := by
  unfold barStars
  dsimp only
  split
  · exact Or.inl ⟨rfl, _, rfl⟩
  · split
    · rename_i e he
      exact Or.inr (Or.inl ⟨_, _, rfl, rfl, by simp [World.providerFailure, failureOf, he], rfl⟩)
    · rename_i dim counts he
      exact Or.inr (Or.inr ⟨_, _, rfl, rfl, by simp [World.providerFailure, failureOf, he], rfl⟩)

theorem Shape_of_success (r : Run) (w : World) (h : r.Shape w) (hok : r.err = none) :
    r.providerThenDisplay w := by
  rcases h with ⟨_, e, he⟩ | ⟨p, e, _, _, _, he⟩ | h
  · rw [hok] at he
    exact absurd he (by simp)
  · rw [hok] at he
    exact absurd he (by simp)
  · exact h

/-- C10: for every widget name and option bag, the collaborator calls of one
run of `CreateWidgets` (provider and display operations, in order) are
exactly one of: none, the run ending in an error; one provider operation that
failed, the run returning the error of the provider; or one provider
operation that succeeded followed by one display operation. A run that
returns no error has the third form. So no run calls the provider twice, the
display twice, or the display without a successful provider call before it. -/
theorem CreateWidgets_one_query_one_render (w : World) (widget : Widget) :
    ((CreateWidgets w widget).noCall ∨ (CreateWidgets w widget).providerOnly w ∨
      (CreateWidgets w widget).providerThenDisplay w) ∧
    ((CreateWidgets w widget).err = none → (CreateWidgets w widget).providerThenDisplay w) := by
  have h : (CreateWidgets w widget).Shape w :=
    CreateWidgets_cases (fun r => r.Shape w) w widget (boxStars_shape w widget)
      (boxWatchers_shape w widget) (boxOpenIssues_shape w widget) (tableRepo_shape w widget)
      (tableBranches_shape w widget) (tableIssues_shape w widget)
      (tablePullRequests_shape w widget) (barViews_shape w widget)
      (barCommits_shape w widget) (barStars_shape w widget)
      (fun _ => Or.inl ⟨rfl, _, rfl⟩)
  exact ⟨h, Shape_of_success _ w h⟩

/-- C10 on a run without error: the commit bar chart of `stubWorld` makes one
provider call and then one display call. -/
theorem CreateWidgets_one_query_one_render_witness :
    (CreateWidgets stubWorld ⟨"github.bar_commits", []⟩).providerThenDisplay stubWorld :=
  (CreateWidgets_one_query_one_render stubWorld ⟨"github.bar_commits", []⟩).2 (by decide)

end Devdash
